import Mathlib

/-! Instagram-API-Go-Lang: the create handler `post` of `main.go`

A shallow embedding of `src/main.go`.  The handler is a straight-line Go function whose
only branching is on the answer of `col.InsertOne`, on the flag `ok` and on the error of
`json.Marshal`.  It is embedded as a pure function from the request and from the answers
of its collaborators to the ordered list of effects it performs, together with the way it
ends (a normal return, or `os.Exit`).

Identifiers that `post` uses and `main.go` never declares (`ok`, `coaster`, `json`) are
taken as parameters (`Env`).  The identifiers `ctx`, `col` and `oneDoc` are the ones bound
in `main`.
-/

namespace InstagramAPI

/-! ## Data model (main.go:15-27) -/

/-- User document, `type User struct` (main.go:15-20). -/
structure User where
  Name : String
  Id : Int
  Email : String
  Password : String
deriving DecidableEq, Repr

/-- Post document, `type Post struct` (main.go:22-27); no handler uses it. -/
structure Post where
  Caption : String
  Id : Int
  Url : String
  Timestamp : String
deriving DecidableEq, Repr

/-! ## Collaborators: context, driver handle, request -/

/-- Go `context.Context` values, as far as `main.go` builds them. -/
inductive Context where
  | Background
  | TODO
  | WithTimeout (parent : Context) (nanos : Nat)
deriving DecidableEq, Repr

/-- Nanoseconds in `time.Second`. -/
def Second : Nat := 1000000000

/-- Handle of a collection: `client.Database(db).Collection(name)`. -/
structure Collection where
  database : String
  name : String
deriving DecidableEq, Repr

/-- Success value of `InsertOne`: the driver's `*mongo.InsertOneResult`. -/
structure InsertOneResult where
  InsertedID : String
deriving DecidableEq, Repr

/-- The parts of `*http.Request` a handler could look at. -/
structure Request where
  Method : String
  Path : String
  Header : List (String × String)
  Body : String
  Ctx : Context
deriving DecidableEq, Repr

/-- `http.StatusOK`. -/
def StatusOK : Nat := 200
/-- `http.StatusCreated`. -/
def StatusCreated : Nat := 201
/-- `http.StatusBadRequest`. -/
def StatusBadRequest : Nat := 400
/-- `http.StatusNotFound`. -/
def StatusNotFound : Nat := 404
/-- `http.StatusInternalServerError`. -/
def StatusInternalServerError : Nat := 500

/-! ## Effects -/

/-- Go values that `post` hands to `fmt.Println` or `reflect.TypeOf`. -/
inductive Value where
  | str (s : String)
  | user (u : User)
  | err (text : String)
  | result (res : InsertOneResult)
  | id (x : String)
deriving DecidableEq, Repr

/-- One argument of a `fmt.Println` call: a value, or `reflect.TypeOf` of a value. -/
inductive PrintArg where
  | val (v : Value)
  | typeOf (v : Value)
deriving DecidableEq, Repr

/-- The observable actions of `post`, one constructor per kind of call in main.go:31-62. -/
inductive Effect where
  | Lock
  | Unlock
  | Println (args : List PrintArg)
  | InsertOne (c : Collection) (cx : Context) (doc : User)
  | Exit (code : Int)
  | Marshal
  | WriteHeader (code : Nat)
  | Write (bytes : String)
  | HeaderAdd (key value : String)
deriving DecidableEq, Repr

/-- How a handler invocation ends: it returns to the server, or the process exits. -/
inductive Termination where
  | returned
  | exited (code : Int)
deriving DecidableEq, Repr

/-- Result of running the handler once: its effects in order, and how it ended. -/
structure Run where
  trace : List Effect
  term : Termination
deriving DecidableEq, Repr

/-- Answers of what `post` calls or reads but `main.go` does not define: the driver's
answer to `InsertOne` (error text or result), the undeclared flag `ok`, and the pair
`(jsonBytes, err)` returned by `json.Marshal(coaster)`. -/
structure Env where
  InsertOne : Collection → Context → User → Except String InsertOneResult
  ok : Bool
  marshal : String × Option String

/-! ## Values bound in `main` (main.go:76-87) -/

/-- `ctx, _ := context.WithTimeout(context.Background(), 15*time.Second)` (main.go:76). -/
def ctx : Context := Context.WithTimeout Context.Background (15 * Second)

/-- `col := client.Database("Appointy").Collection("Users")` (main.go:79). -/
def col : Collection := { database := "Appointy", name := "Users" }

/-- The document built at main.go:82-87. -/
def oneDoc : User :=
  { Name := "Camboda Sun", Id := 2, Email := "sun@gmail.com", Password := "456" }

/-! ## The handler (main.go:29-64) -/

set_option linter.unusedVariables false

/-- The create handler `post` (main.go:29-64).  The request `r` is a parameter the body
never reads, as in the source.  The receiver `h` shows through the effects `Lock` and
`Unlock`, the writer `w` through `WriteHeader`, `Write` and `HeaderAdd`. -/
def post (r : Request) (E : Env) : Run :=
  -- h.Lock()
  let t := [Effect.Lock]
  -- fmt.Println("oneDoc Type: ", reflect.TypeOf(oneDoc), "\n")
  let t := t ++ [Effect.Println
    [.val (.str "oneDoc Type: "), .typeOf (.user oneDoc), .val (.str "\n")]]
  -- result, insertErr := col.InsertOne(ctx, oneDoc)
  let t := t ++ [Effect.InsertOne col ctx oneDoc]
  match E.InsertOne col ctx oneDoc with
  | .error insertErr =>
    -- fmt.Println("InsertONE Error:", insertErr)
    let t := t ++ [Effect.Println [.val (.str "InsertONE Error:"), .val (.err insertErr)]]
    -- os.Exit(1)
    { trace := t ++ [Effect.Exit 1], term := Termination.exited 1 }
  | .ok result =>
    -- fmt.Println("InsertOne() result type: ", reflect.TypeOf(result))
    let t := t ++ [Effect.Println
      [.val (.str "InsertOne() result type: "), .typeOf (.result result)]]
    -- fmt.Println("InsertOne() api result type: ", result)
    let t := t ++ [Effect.Println
      [.val (.str "InsertOne() api result type: "), .val (.result result)]]
    -- newID := result.InsertedID
    let newID := result.InsertedID
    -- fmt.Println("InsertedOne(), newID", newID)
    let t := t ++ [Effect.Println [.val (.str "InsertedOne(), newID"), .val (.id newID)]]
    -- fmt.Println("InsertedOne(), newID type:", reflect.TypeOf(newID))
    let t := t ++ [Effect.Println
      [.val (.str "InsertedOne(), newID type:"), .typeOf (.id newID)]]
    -- h.Unlock()
    let t := t ++ [Effect.Unlock]
    -- if !ok { w.WriteHeader(http.StatusNotFound); return }
    if !E.ok then
      { trace := t ++ [Effect.WriteHeader StatusNotFound], term := Termination.returned }
    else
      -- jsonBytes, err := json.Marshal(coaster)
      let t := t ++ [Effect.Marshal]
      let jsonBytes := E.marshal.1
      let err := E.marshal.2
      -- if err != nil { w.WriteHeader(500); w.Write([]byte(err.Error())) }
      let t := match err with
        | some e => t ++ [Effect.WriteHeader StatusInternalServerError, Effect.Write e]
        | none => t
      -- w.Header().Add("content-type", "application/json")
      let t := t ++ [Effect.HeaderAdd "content-type" "application/json"]
      -- w.WriteHeader(http.StatusOK)
      let t := t ++ [Effect.WriteHeader StatusOK]
      -- w.Write(jsonBytes)
      let t := t ++ [Effect.Write jsonBytes]
      { trace := t, term := Termination.returned }

/-! ## Observers of a trace -/

/-- Documents handed to `InsertOne`, in call order. -/
def insertedDocs : List Effect → List User
  | [] => []
  | Effect.InsertOne _ _ doc :: es => doc :: insertedDocs es
  | _ :: es => insertedDocs es

/-- Whether an effect is a call on the datastore driver. -/
def Effect.isDatastore : Effect → Bool
  | Effect.InsertOne _ _ _ => true
  | _ => false

/-- Whether an effect is a call on the `http.ResponseWriter`. -/
def Effect.isWriterCall : Effect → Bool
  | Effect.WriteHeader _ => true
  | Effect.Write _ => true
  | Effect.HeaderAdd _ _ => true
  | _ => false

/-- Calls made on the `http.ResponseWriter`, in order. -/
def writerCalls (t : List Effect) : List Effect := t.filter Effect.isWriterCall

/-- Status codes passed to `WriteHeader`, in order. -/
def statusCodes : List Effect → List Nat
  | [] => []
  | Effect.WriteHeader code :: es => code :: statusCodes es
  | _ :: es => statusCodes es

/-- State of the handler's mutex after one effect. -/
def lockStep (held : Bool) : Effect → Bool
  | Effect.Lock => true
  | Effect.Unlock => false
  | _ => held

/-- For each `InsertOne` of a trace, in order, whether the mutex is held when the call is
made; `held` is the state of the mutex before the trace. -/
def insertLockStates : Bool → List Effect → List Bool
  | _, [] => []
  | held, Effect.InsertOne _ _ _ :: es => held :: insertLockStates held es
  | held, e :: es => insertLockStates (lockStep held e) es

/-- State of the mutex after a trace. -/
def lockAfter (held : Bool) (t : List Effect) : Bool := t.foldl lockStep held

/-! ## The response writer of `net/http`

The first `WriteHeader` fixes the status and the headers sent; a later `WriteHeader` is
ignored; a `Write` before any `WriteHeader` sends status 200 first. -/

/-- What an `http.ResponseWriter` has accumulated. -/
structure ResponseWriter where
  header : List (String × String)
  status : Option Nat
  sentHeader : List (String × String)
  body : String
deriving DecidableEq, Repr

/-- A fresh writer: nothing sent yet. -/
def ResponseWriter.fresh : ResponseWriter :=
  { header := [], status := none, sentHeader := [], body := "" }

/-- `w.WriteHeader(code)`: the first call wins. -/
def ResponseWriter.WriteHeader (w : ResponseWriter) (code : Nat) : ResponseWriter :=
  match w.status with
  | some _ => w
  | none => { w with status := some code, sentHeader := w.header }

/-- `w.Write(bytes)`: sends status 200 first when no header was written. -/
def ResponseWriter.Write (w : ResponseWriter) (bytes : String) : ResponseWriter :=
  let w1 := w.WriteHeader StatusOK
  { w1 with body := w1.body ++ bytes }

/-- `w.Header().Add(key, value)`. -/
def ResponseWriter.HeaderAdd (w : ResponseWriter) (key value : String) : ResponseWriter :=
  { w with header := w.header ++ [(key, value)] }

/-- One effect applied to the writer; effects that are not writer calls leave it alone. -/
def ResponseWriter.step (w : ResponseWriter) : Effect → ResponseWriter
  | Effect.WriteHeader code => w.WriteHeader code
  | Effect.Write bytes => w.Write bytes
  | Effect.HeaderAdd key value => w.HeaderAdd key value
  | _ => w

/-- The writer after a whole trace, starting from a fresh writer. -/
def respond (t : List Effect) : ResponseWriter := t.foldl ResponseWriter.step ResponseWriter.fresh

/-! ## The collection as the list of documents inserted so far -/

/-- Effect of one driver call on the collection: an `InsertOne` that the driver answers
with a result appends its document, any other effect changes nothing. -/
def store (E : Env) (db : List User) : Effect → List User
  | Effect.InsertOne c cx doc =>
    match E.InsertOne c cx doc with
    | .ok _ => db ++ [doc]
    | .error _ => db
  | _ => db

/-- The collection after a whole trace. -/
def storeAll (E : Env) (db : List User) (t : List Effect) : List User := t.foldl (store E) db

/-- The server loop of `http.ListenAndServe` restricted to the route `/users`
(main.go:89-90): requests are handled one after the other by `post`; the loop stops when
the process exits.  Returns the collection at that point. -/
def serve : List User → List (Request × Env) → List User
  | db, [] => db
  | db, (r, E) :: rest =>
    let run := post r E
    let db1 := storeAll E db run.trace
    match run.term with
    | Termination.exited _ => db1
    | Termination.returned => serve db1 rest

/-- Number of requests the server loop handles before it stops or runs out of requests. -/
def served : List (Request × Env) → Nat
  | [] => 0
  | (r, E) :: rest =>
    match (post r E).term with
    | Termination.exited _ => 1
    | Termination.returned => 1 + served rest

/-! ## Concrete inputs -/

/-- A create request with the payload of the scenario: name, email and password 456. -/
def sampleRequest : Request :=
  { Method := "POST", Path := "/users",
    Header := [("Content-Type", "application/json")],
    Body := "\x7b\"name\":\"Camboda Sun\",\"email\":\"sun@gmail.com\",\"password\":\"456\"\x7d",
    Ctx := Context.Background }

/-- A create request whose payload has an empty name and an email without any `@`. -/
def emptyNameRequest : Request :=
  { Method := "POST", Path := "/users",
    Header := [("Content-Type", "application/json")],
    Body := "\x7b\"name\":\"\",\"email\":\"sun.gmail.com\",\"password\":\"456\"\x7d",
    Ctx := Context.Background }

/-- The driver accepts the insert, `ok` holds and the response serializes. -/
def okEnv : Env :=
  { InsertOne := fun _ _ _ => .ok { InsertedID := "61605f0d8b7a2c3d4e5f6a7b" },
    ok := true,
    marshal := ("\x7b\"Name\":\"Camboda Sun\"\x7d", none) }

/-- The driver answers the insert with an error. -/
def failEnv : Env :=
  { InsertOne := fun _ _ _ => .error "server selection error: connection refused",
    ok := true,
    marshal := ("", none) }

/-- The driver accepts the insert and `ok` holds, but `json.Marshal` fails. -/
def marshalFailEnv : Env :=
  { InsertOne := fun _ _ _ => .ok { InsertedID := "61605f0d8b7a2c3d4e5f6a7b" },
    ok := true,
    marshal := ("", some "json: unsupported type: chan int") }

/-! ## The three shapes of a run -/

/-- Trace of `post` up to and including the `InsertOne` call (main.go:31-34). -/
def prologue : List Effect :=
  [Effect.Lock,
   Effect.Println [.val (.str "oneDoc Type: "), .typeOf (.user oneDoc), .val (.str "\n")],
   Effect.InsertOne col ctx oneDoc]

/-- Trace of the success branch and of the unlock that follows it (main.go:39-48). -/
def successLog (result : InsertOneResult) : List Effect :=
  [Effect.Println [.val (.str "InsertOne() result type: "), .typeOf (.result result)],
   Effect.Println [.val (.str "InsertOne() api result type: "), .val (.result result)],
   Effect.Println [.val (.str "InsertedOne(), newID"), .val (.id result.InsertedID)],
   Effect.Println [.val (.str "InsertedOne(), newID type:"), .typeOf (.id result.InsertedID)],
   Effect.Unlock]

theorem post_of_error (r : Request) (E : Env) (e : String)
    (h : E.InsertOne col ctx oneDoc = .error e) :
    post r E =
      { trace := prologue ++
          [Effect.Println [.val (.str "InsertONE Error:"), .val (.err e)], Effect.Exit 1],
        term := Termination.exited 1 } := by
  simp [post, prologue, h]

theorem post_of_not_ok (r : Request) (E : Env) (res : InsertOneResult)
    (h : E.InsertOne col ctx oneDoc = .ok res) (hok : E.ok = false) :
    post r E =
      { trace := prologue ++ successLog res ++ [Effect.WriteHeader StatusNotFound],
        term := Termination.returned } := by
  simp [post, prologue, successLog, h, hok]

theorem post_of_marshal_ok (r : Request) (E : Env) (res : InsertOneResult)
    (h : E.InsertOne col ctx oneDoc = .ok res) (hok : E.ok = true)
    (hm : E.marshal.2 = none) :
    post r E =
      { trace := prologue ++ successLog res ++
          [Effect.Marshal, Effect.HeaderAdd "content-type" "application/json",
           Effect.WriteHeader StatusOK, Effect.Write E.marshal.1],
        term := Termination.returned } := by
  simp [post, prologue, successLog, h, hok, hm]

theorem post_of_marshal_error (r : Request) (E : Env) (res : InsertOneResult)
    (errText : String)
    (h : E.InsertOne col ctx oneDoc = .ok res) (hok : E.ok = true)
    (hm : E.marshal.2 = some errText) :
    post r E =
      { trace := prologue ++ successLog res ++
          [Effect.Marshal, Effect.WriteHeader StatusInternalServerError, Effect.Write errText,
           Effect.HeaderAdd "content-type" "application/json",
           Effect.WriteHeader StatusOK, Effect.Write E.marshal.1],
        term := Termination.returned } := by
  simp [post, prologue, successLog, h, hok, hm]

/-- Every run of `post` has one of four shapes. -/
theorem post_shapes (r : Request) (E : Env) :
    (∃ e, E.InsertOne col ctx oneDoc = .error e ∧
      post r E =
        { trace := prologue ++
            [Effect.Println [.val (.str "InsertONE Error:"), .val (.err e)], Effect.Exit 1],
          term := Termination.exited 1 }) ∨
    (∃ res tail, E.InsertOne col ctx oneDoc = .ok res ∧
      post r E =
        { trace := prologue ++ successLog res ++ tail, term := Termination.returned } ∧
      (tail = [Effect.WriteHeader StatusNotFound] ∨
       tail = [Effect.Marshal, Effect.HeaderAdd "content-type" "application/json",
           Effect.WriteHeader StatusOK, Effect.Write E.marshal.1] ∨
       ∃ errText, tail =
          [Effect.Marshal, Effect.WriteHeader StatusInternalServerError, Effect.Write errText,
           Effect.HeaderAdd "content-type" "application/json",
           Effect.WriteHeader StatusOK, Effect.Write E.marshal.1])) := by
  cases h : E.InsertOne col ctx oneDoc with
  | error e => exact Or.inl ⟨e, rfl, post_of_error r E e h⟩
  | ok res =>
    refine Or.inr ?_
    cases hok : E.ok with
    | false => exact ⟨res, _, rfl, post_of_not_ok r E res h hok, Or.inl rfl⟩
    | true =>
      cases hm : E.marshal.2 with
      | none => exact ⟨res, _, rfl, post_of_marshal_ok r E res h hok hm, Or.inr (Or.inl rfl)⟩
      | some errText =>
        exact ⟨res, _, rfl, post_of_marshal_error r E res errText h hok hm,
          Or.inr (Or.inr ⟨errText, rfl⟩)⟩

/-- With a successful insert a run returns and adds exactly `oneDoc` to the collection. -/
theorem post_success_step (r : Request) (E : Env) (res : InsertOneResult) (db : List User)
    (h : E.InsertOne col ctx oneDoc = .ok res) :
    (post r E).term = Termination.returned ∧
      storeAll E db (post r E).trace = db ++ [oneDoc] := by
  rcases post_shapes r E with ⟨e, he, _⟩ | ⟨res1, tail, _, hp, ht⟩
  · rw [h] at he; cases he
  · rw [hp]
    refine ⟨rfl, ?_⟩
    rcases ht with rfl | rfl | ⟨errText, rfl⟩ <;>
      simp [storeAll, store, prologue, successLog, h]

/-! ## Claims -/

/-- C1 (as stated, refuted): at the scenario request with a successful insert, a document
handed to `InsertOne` has the plaintext string 456 as its password. -/
theorem C1_counterexample :
    ∃ d ∈ insertedDocs (post sampleRequest okEnv).trace, d.Password = "456" := by
  decide

/-- C1 (amended): for every request and every environment, the only document `post` hands
to `InsertOne` is the document built in `main`, and its password field is the plaintext
string 456; nothing is hashed. -/
theorem C1_inserted_password_is_plaintext (r : Request) (E : Env) :
    insertedDocs (post r E).trace = [oneDoc] ∧ oneDoc.Password = "456" := by
  refine ⟨?_, rfl⟩
  rcases post_shapes r E with ⟨e, _, hp⟩ | ⟨res, tail, _, hp, ht⟩
  · rw [hp]; rfl
  · rw [hp]
    rcases ht with rfl | rfl | ⟨errText, rfl⟩ <;> rfl

/-- C2 (as stated, refuted): when the driver answers the insert with an error, `post` ends
by exiting the process with status 1, and the server loop given two requests handles only
the first. -/
theorem C2_counterexample :
    (post sampleRequest failEnv).term = Termination.exited 1 ∧
      served [(sampleRequest, failEnv), (sampleRequest, okEnv)] = 1 := by
  decide

/-- C2 (amended): for every request and every error the driver returns from the insert,
`post` prints the error and ends the process with `os.Exit(1)`; it does not return to the
server, and it neither unlocks nor touches the response writer before that. -/
theorem C2_insert_error_exits_process (r : Request) (E : Env) (e : String)
    (h : E.InsertOne col ctx oneDoc = .error e) :
    (post r E).term = Termination.exited 1 ∧
      (post r E).trace =
        [Effect.Lock,
         Effect.Println [.val (.str "oneDoc Type: "), .typeOf (.user oneDoc), .val (.str "\n")],
         Effect.InsertOne col ctx oneDoc,
         Effect.Println [.val (.str "InsertONE Error:"), .val (.err e)],
         Effect.Exit 1] := by
  rw [post_of_error r E e h]
  exact ⟨rfl, rfl⟩

/-- C2 (amended), at the failing environment. -/
theorem C2_insert_error_exits_process_witness :
    (post sampleRequest failEnv).term = Termination.exited 1 ∧
      (post sampleRequest failEnv).trace =
        [Effect.Lock,
         Effect.Println [.val (.str "oneDoc Type: "), .typeOf (.user oneDoc), .val (.str "\n")],
         Effect.InsertOne col ctx oneDoc,
         Effect.Println [.val (.str "InsertONE Error:"),
           .val (.err "server selection error: connection refused")],
         Effect.Exit 1] :=
  C2_insert_error_exits_process sampleRequest failEnv
    "server selection error: connection refused" rfl

/-- C3 (as stated, refuted): for a request whose payload has an empty name and a malformed
email, `post` calls `InsertOne`, the document is written to the collection, and the only
status written is 200, not 400. -/
theorem C3_counterexample :
    Effect.InsertOne col ctx oneDoc ∈ (post emptyNameRequest okEnv).trace ∧
      serve [] [(emptyNameRequest, okEnv)] = [oneDoc] ∧
      statusCodes (post emptyNameRequest okEnv).trace = [200] := by
  decide

/-- C3 (amended): for every request, whatever its payload, `post` performs the datastore
insert of the fixed document and never writes status 400. -/
theorem C3_no_validation (r : Request) (E : Env) :
    insertedDocs (post r E).trace = [oneDoc] ∧
      StatusBadRequest ∉ statusCodes (post r E).trace := by
  rcases post_shapes r E with ⟨e, _, hp⟩ | ⟨res, tail, _, hp, ht⟩
  · rw [hp]
    refine ⟨rfl, ?_⟩
    simp [statusCodes, prologue]
  · rw [hp]
    rcases ht with rfl | rfl | ⟨errText, rfl⟩ <;> refine ⟨rfl, ?_⟩ <;>
      simp [statusCodes, prologue, successLog, StatusBadRequest, StatusNotFound, StatusOK,
        StatusInternalServerError]

/-- C4 (as stated, refuted): with a successful insert and a response that serializes, the
status `post` writes, and the one the client receives, is 200, and 201 is never written. -/
theorem C4_counterexample :
    statusCodes (post sampleRequest okEnv).trace = [200] ∧
      (respond (post sampleRequest okEnv).trace).status = some 200 ∧
      StatusCreated ∉ statusCodes (post sampleRequest okEnv).trace := by
  decide

/-- C4 (amended): for every request in which the insert succeeds and the response
serializes without error, the one status `post` writes is 200 OK when the flag `ok` holds
and 404 Not Found when it does not; it is the status the client receives, and it is
never 201. -/
theorem C4_success_status (r : Request) (E : Env) (res : InsertOneResult)
    (h : E.InsertOne col ctx oneDoc = .ok res) (hm : E.marshal.2 = none) :
    statusCodes (post r E).trace = [if E.ok then StatusOK else StatusNotFound] ∧
      (respond (post r E).trace).status = some (if E.ok then StatusOK else StatusNotFound) ∧
      StatusCreated ∉ statusCodes (post r E).trace := by
  cases hok : E.ok with
  | false =>
    rw [post_of_not_ok r E res h hok]
    refine ⟨rfl, rfl, ?_⟩
    simp [statusCodes, prologue, successLog, StatusCreated, StatusNotFound]
  | true =>
    rw [post_of_marshal_ok r E res h hok hm]
    refine ⟨rfl, rfl, ?_⟩
    simp [statusCodes, prologue, successLog, StatusCreated, StatusOK]

/-- C4 (amended), at the scenario request with a successful insert. -/
theorem C4_success_status_witness :
    statusCodes (post sampleRequest okEnv).trace =
        [if okEnv.ok then StatusOK else StatusNotFound] ∧
      (respond (post sampleRequest okEnv).trace).status =
        some (if okEnv.ok then StatusOK else StatusNotFound) ∧
      StatusCreated ∉ statusCodes (post sampleRequest okEnv).trace :=
  C4_success_status sampleRequest okEnv ⟨"61605f0d8b7a2c3d4e5f6a7b"⟩ rfl rfl

/-- C5 (as stated, refuted): when the driver answers the insert with an error, `post`
makes no call on the response writer, so no status, and in particular not 500, is sent. -/
theorem C5_counterexample :
    writerCalls (post sampleRequest failEnv).trace = [] ∧
      (respond (post sampleRequest failEnv).trace).status = none ∧
      StatusInternalServerError ∉ statusCodes (post sampleRequest failEnv).trace := by
  decide

/-- C5 (amended): for every request in which the insert returns an error, `post` writes no
HTTP response at all: it makes no call on the response writer, so no status is sent and
the body stays empty; the error text is only printed, and then the process exits. -/
theorem C5_insert_error_no_response (r : Request) (E : Env) (e : String)
    (h : E.InsertOne col ctx oneDoc = .error e) :
    writerCalls (post r E).trace = [] ∧
      respond (post r E).trace = ResponseWriter.fresh ∧
      (respond (post r E).trace).body = "" ∧
      Effect.Println [.val (.str "InsertONE Error:"), .val (.err e)] ∈ (post r E).trace ∧
      (post r E).trace.getLast? = some (Effect.Exit 1) := by
  rw [post_of_error r E e h]
  refine ⟨rfl, rfl, rfl, ?_, rfl⟩
  simp [prologue]

/-- C5 (amended), at the failing environment. -/
theorem C5_insert_error_no_response_witness :
    writerCalls (post sampleRequest failEnv).trace = [] ∧
      respond (post sampleRequest failEnv).trace = ResponseWriter.fresh ∧
      (respond (post sampleRequest failEnv).trace).body = "" ∧
      Effect.Println [.val (.str "InsertONE Error:"),
          .val (.err "server selection error: connection refused")] ∈
        (post sampleRequest failEnv).trace ∧
      (post sampleRequest failEnv).trace.getLast? = some (Effect.Exit 1) :=
  C5_insert_error_no_response sampleRequest failEnv
    "server selection error: connection refused" rfl

/-- C6 (as stated, refuted): after two successful creates on an empty collection, the two
documents of the collection both have id 2. -/
theorem C6_counterexample :
    (serve [] [(sampleRequest, okEnv), (sampleRequest, okEnv)]).map User.Id = [2, 2] ∧
      ¬ ((serve [] [(sampleRequest, okEnv), (sampleRequest, okEnv)]).map User.Id).Nodup := by
  decide

/-- C6 (amended): after any sequence of successful creates, the collection has grown by
one copy of the fixed document per request, so every document written has the same id 2:
starting from the empty collection the list of ids is a list of 2s, as long as the number
of requests. -/
theorem C6_successful_creates_share_id (db : List User) (reqs : List (Request × Env))
    (h : ∀ p ∈ reqs, ∃ res, p.2.InsertOne col ctx oneDoc = .ok res) :
    serve db reqs = db ++ List.replicate reqs.length oneDoc ∧
      (serve [] reqs).map User.Id = List.replicate reqs.length 2 := by
  have key : ∀ (reqs : List (Request × Env)) (db : List User),
      (∀ p ∈ reqs, ∃ res, p.2.InsertOne col ctx oneDoc = .ok res) →
      serve db reqs = db ++ List.replicate reqs.length oneDoc := by
    intro reqs
    induction reqs with
    | nil => intro db _; simp [serve]
    | cons p rest ih =>
      intro db hall
      obtain ⟨r, E⟩ := p
      obtain ⟨res, hres⟩ := hall (r, E) (List.mem_cons_self _ _)
      obtain ⟨hterm, hstore⟩ := post_success_step r E res db hres
      have hrest := ih (db ++ [oneDoc]) (fun q hq => hall q (List.mem_cons_of_mem _ hq))
      simp only [serve, hterm, hstore, hrest, List.length_cons, List.replicate_succ,
        List.append_assoc, List.singleton_append]
  refine ⟨key reqs db h, ?_⟩
  rw [key reqs [] h]
  simp [oneDoc]

/-- C6 (amended), at two successful creates. -/
theorem C6_successful_creates_share_id_witness :
    serve [] [(sampleRequest, okEnv), (emptyNameRequest, okEnv)] =
        [] ++ List.replicate [(sampleRequest, okEnv), (emptyNameRequest, okEnv)].length oneDoc ∧
      (serve [] [(sampleRequest, okEnv), (emptyNameRequest, okEnv)]).map User.Id =
        List.replicate [(sampleRequest, okEnv), (emptyNameRequest, okEnv)].length 2 :=
  C6_successful_creates_share_id [] [(sampleRequest, okEnv), (emptyNameRequest, okEnv)]
    (by
      intro p hp
      simp only [List.mem_cons, List.mem_singleton, List.not_mem_nil, or_false] at hp
      rcases hp with rfl | rfl <;> exact ⟨⟨"61605f0d8b7a2c3d4e5f6a7b"⟩, rfl⟩)

/-- C7 (as stated, refuted): in the run for the scenario request, the mutex is held when
`InsertOne` is called. -/
theorem C7_counterexample :
    insertLockStates false (post sampleRequest okEnv).trace = [true] := by
  decide

/-- C7 (amended): in every run of `post` the one `InsertOne` call is made while the
handler holds the lock, after `Lock` and before any `Unlock`; the lock is released
afterwards exactly when the run returns. -/
theorem C7_insert_under_lock (r : Request) (E : Env) :
    insertLockStates false (post r E).trace = [true] ∧
      (lockAfter false (post r E).trace = false ↔ (post r E).term = Termination.returned) := by
  rcases post_shapes r E with ⟨e, _, hp⟩ | ⟨res, tail, _, hp, ht⟩
  · rw [hp]
    refine ⟨rfl, ?_⟩
    simp [lockAfter, lockStep, prologue]
  · rw [hp]
    rcases ht with rfl | rfl | ⟨errText, rfl⟩ <;> refine ⟨rfl, ?_⟩ <;>
      simp [lockAfter, lockStep, prologue, successLog]

/-- C8: for every request and every answer of the driver, success or error, the calls
`post` makes on the datastore are exactly one `InsertOne`; there is no second attempt and
no other datastore operation. -/
theorem C8_insert_exactly_once (r : Request) (E : Env) :
    (post r E).trace.filter Effect.isDatastore = [Effect.InsertOne col ctx oneDoc] ∧
      ((post r E).trace.filter Effect.isDatastore).length = 1 := by
  rcases post_shapes r E with ⟨e, _, hp⟩ | ⟨res, tail, _, hp, ht⟩
  · rw [hp]; exact ⟨rfl, rfl⟩
  · rw [hp]
    rcases ht with rfl | rfl | ⟨errText, rfl⟩ <;> exact ⟨rfl, rfl⟩

/-- C9: the arguments of the insert do not depend on the request: for any two requests,
in any two environments, the datastore calls of the two runs are the same, namely one
`InsertOne` on collection `Users` of database `Appointy` with the 15-second-timeout
context built in `main` and the document Camboda Sun, 2, sun@gmail.com, 456. -/
theorem C9_insert_arguments_fixed (r1 r2 : Request) (E1 E2 : Env) :
    (post r1 E1).trace.filter Effect.isDatastore =
        (post r2 E2).trace.filter Effect.isDatastore ∧
      (post r1 E1).trace.filter Effect.isDatastore =
        [Effect.InsertOne ⟨"Appointy", "Users"⟩
          (Context.WithTimeout Context.Background (15 * 1000000000))
          ⟨"Camboda Sun", 2, "sun@gmail.com", "456"⟩] := by
  have key : ∀ (r : Request) (E : Env),
      (post r E).trace.filter Effect.isDatastore =
        [Effect.InsertOne ⟨"Appointy", "Users"⟩
          (Context.WithTimeout Context.Background (15 * 1000000000))
          ⟨"Camboda Sun", 2, "sun@gmail.com", "456"⟩] := by
    intro r E
    rcases post_shapes r E with ⟨e, _, hp⟩ | ⟨res, tail, _, hp, ht⟩
    · rw [hp]; rfl
    · rw [hp]
      rcases ht with rfl | rfl | ⟨errText, rfl⟩ <;> rfl
  exact ⟨(key r1 E1).trans (key r2 E2).symm, key r1 E1⟩

/-- C10: when `json.Marshal` returns an error (the insert has succeeded and `ok` holds, so
that the call is reached), `post` does not return early: its calls on the response writer
are, in order, `WriteHeader(500)`, `Write` of the error text, `Header().Add` of the
content type, `WriteHeader(200)` and `Write(jsonBytes)`; with a writer whose first
`WriteHeader` wins the status sent is 500 and the body is the error text followed by
`jsonBytes`. -/
theorem C10_marshal_error_falls_through (r : Request) (E : Env) (res : InsertOneResult)
    (jsonBytes errText : String)
    (h : E.InsertOne col ctx oneDoc = .ok res) (hok : E.ok = true)
    (hm : E.marshal = (jsonBytes, some errText)) :
    writerCalls (post r E).trace =
        [Effect.WriteHeader 500, Effect.Write errText,
         Effect.HeaderAdd "content-type" "application/json",
         Effect.WriteHeader 200, Effect.Write jsonBytes] ∧
      (post r E).term = Termination.returned ∧
      (respond (post r E).trace).status = some 500 ∧
      (respond (post r E).trace).body = errText ++ jsonBytes := by
  have hm2 : E.marshal.2 = some errText := by rw [hm]
  have hm1 : E.marshal.1 = jsonBytes := by rw [hm]
  rw [post_of_marshal_error r E res errText h hok hm2, hm1]
  refine ⟨rfl, rfl, rfl, ?_⟩
  simp [respond, prologue, successLog, ResponseWriter.step, ResponseWriter.Write,
    ResponseWriter.WriteHeader, ResponseWriter.HeaderAdd, ResponseWriter.fresh]

/-- C10, at an environment in which `json.Marshal` fails. -/
theorem C10_marshal_error_falls_through_witness :
    writerCalls (post sampleRequest marshalFailEnv).trace =
        [Effect.WriteHeader 500, Effect.Write "json: unsupported type: chan int",
         Effect.HeaderAdd "content-type" "application/json",
         Effect.WriteHeader 200, Effect.Write ""] ∧
      (post sampleRequest marshalFailEnv).term = Termination.returned ∧
      (respond (post sampleRequest marshalFailEnv).trace).status = some 500 ∧
      (respond (post sampleRequest marshalFailEnv).trace).body =
        "json: unsupported type: chan int" ++ "" :=
  C10_marshal_error_falls_through sampleRequest marshalFailEnv
    ⟨"61605f0d8b7a2c3d4e5f6a7b"⟩ "" "json: unsupported type: chan int" rfl rfl rfl

end InstagramAPI
